import Mathlib

/-!
Verification development for a computer-use agent: a conversation
orchestrator (`src/agent.py`) driving an action dispatcher
(`src/tools/computer.py`) over a device capability (pyautogui / screen
capture).  The Python source is shallowly embedded below: pure functions
become Lean functions, the device capability becomes an explicit oracle,
device invocations are collected in an explicit trace, and Python
exceptions are modelled with `Except String` (the `String` standing for
`str(e)`; the exact wording of interpreter-generated exception messages
is modelled abstractly, while messages built by the source itself are
reproduced verbatim).
-/

namespace ComputerUse

/-! ## Python values

Parameter values supplied by the model: integers, strings, lists, `None`,
and floating-point literals.  Floats never participate in arithmetic in
the embedded code paths; they are carried by their printed representation.
-/

inductive PyVal where
  | int (n : Int)
  | str (s : String)
  | float (repr : String)
  | none
  | list (l : List PyVal)

mutual

/-- Python `str()` of a value appearing inside an f-string; `repr()` is
used for elements of a list. -/
def pyRepr : PyVal → String
  | PyVal.int n => toString n
  | PyVal.str s => "\x27" ++ s ++ "\x27"
  | PyVal.float r => r
  | PyVal.none => "None"
  | PyVal.list l => "[" ++ String.intercalate ", " (pyReprList l) ++ "]"

def pyReprList : List PyVal → List String
  | [] => []
  | v :: vs => pyRepr v :: pyReprList vs

end

/-- Python `str()`: a string prints as itself, everything else as its repr. -/
def pyStr : PyVal → String
  | PyVal.str s => s
  | v => pyRepr v

/-! Python string methods used by the source (`str.lower`, `str.replace`,
`str.split`), embedded as structurally recursive functions on character
lists.  `lower` uses the ASCII case mapping (the key names of the tool
schema are ASCII); `replace` and `split` use Python's left-to-right
non-overlapping semantics for a non-empty pattern (the embedded call
sites use the fixed patterns `"ctrl"` and `"+"`).  The `Nat` argument is
recursion fuel, instantiated with the input length. -/

def pyLower (s : String) : String := String.mk (s.data.map Char.toLower)

def replaceFuel (pat repl : List Char) : Nat → List Char → List Char
  | 0, l => l
  | _ + 1, [] => []
  | fuel + 1, c :: rest =>
    if pat.isPrefixOf (c :: rest) ∧ 0 < pat.length then
      repl ++ replaceFuel pat repl fuel ((c :: rest).drop pat.length)
    else
      c :: replaceFuel pat repl fuel rest

def pyReplace (s pat repl : String) : String :=
  String.mk (replaceFuel pat.data repl.data s.data.length s.data)

def splitFuel (sep : List Char) : Nat → List Char → List Char → List String
  | 0, acc, l => [String.mk (acc ++ l)]
  | _ + 1, acc, [] => [String.mk acc]
  | fuel + 1, acc, c :: rest =>
    if sep.isPrefixOf (c :: rest) ∧ 0 < sep.length then
      String.mk acc :: splitFuel sep fuel [] ((c :: rest).drop sep.length)
    else
      splitFuel sep fuel (acc ++ [c]) rest

def pySplit (s sep : String) : List String :=
  splitFuel sep.data s.data.length [] s.data

/-- A keyword-argument mapping (Python dict with unique string keys). -/
def Params := List (String × PyVal)

/-- `dict.get(k)` / keyword binding lookup: `none` when the key is absent. -/
def Params.get? (p : Params) (k : String) : Option PyVal :=
  (p.find? (fun q => q.1 == k)).map (fun q => q.2)

/-- Keyword binding with a default: the default applies only when the key
is absent (an explicit `None` value is kept, as in Python). -/
def Params.getOr (p : Params) (k : String) (d : PyVal) : PyVal :=
  (p.get? k).getD d

/-- `{k: v for k, v in d.items() if k != key}`. -/
def Params.eraseKey (p : Params) (k : String) : Params :=
  p.filter (fun q => q.1 != k)

/-- Python subscription `v[i]`: lists index into elements, strings into
one-character strings; other values are not subscriptable.  Errors model
`IndexError` / `TypeError`. -/
def pyIndex : PyVal → Nat → Except String PyVal
  | PyVal.list l, i =>
      match l.get? i with
      | some v => Except.ok v
      | Option.none => Except.error "list index out of range"
  | PyVal.str s, i =>
      match s.data.get? i with
      | some c => Except.ok (PyVal.str (String.mk [c]))
      | Option.none => Except.error "string index out of range"
  | _, _ => Except.error "object is not subscriptable"

/-- Tuple unpacking `x, y = v` for a two-element list.  Non-list values
and wrong lengths raise (`TypeError` / `ValueError`).  (Python would also
unpack two-element tuples and two-character strings; those shapes do not
occur in the tool schema and are folded into the raising case.) -/
def unpackPair : PyVal → Except String (PyVal × PyVal)
  | PyVal.list [a, b] => Except.ok (a, b)
  | PyVal.list _ => Except.error "cannot unpack coordinate list"
  | _ => Except.error "cannot unpack non-list coordinate"

/-- Using a value as an `int` (comparison / negation); non-ints raise
`TypeError`.  (Python defers the raise on the second coordinate until it
is actually compared; that corner is folded into an upfront check.) -/
def asInt : PyVal → Except String Int
  | PyVal.int n => Except.ok n
  | _ => Except.error "unsupported operand type"

/-! ## Device capability

The out-of-scope input-injection and capture primitives (`pyautogui.*`,
`screencapture` + PIL) are an oracle: each call either succeeds or raises.
Every attempted call is recorded in a trace.
-/

inductive DeviceCall where
  | click (button : String) (x y : Int)
  | doubleClick (x y : Int)
  | tripleClick (x y : Int)
  | moveTo (x y : Int)
  | drag (dx dy : Int)
  | write (text : String)
  | press (k : String)
  | hotkey (ks : List String)
  | scroll (amount : Int)
  | hscroll (amount : Int)
  | sleep (duration : PyVal)
  | capture

/-- Result of the screen-capture primitive: image data, a nonzero exit
status with stderr text, or a raised exception. -/
inductive CaptureResult where
  | ok (data : String)
  | failed (stderr : String)
  | raised (msg : String)

structure Device where
  act : DeviceCall → Except String Unit
  capture : CaptureResult

/-- A device oracle on which every primitive succeeds. -/
def devOk : Device := ⟨fun _ => Except.ok (), CaptureResult.ok "imgdata"⟩

/-! ## Outcomes

The dicts returned by the handlers in `src/tools/computer.py`:
`{"error": msg}`, `{"result": msg}`, or the image payload. -/

inductive ToolResult where
  | error (msg : String)
  | ok (msg : String)
  | image (media_type data : String)
deriving DecidableEq

/-- A handler run: either a normal dict result or an uncaught Python
exception, together with the trace of device calls attempted. -/
abbrev HResult := Except String ToolResult × List DeviceCall

def hReturn (r : ToolResult) : HResult := (Except.ok r, [])

def hError (msg : String) : HResult := (Except.ok (ToolResult.error msg), [])

def hRaise (e : String) : HResult := (Except.error e, [])

/-- Perform one device call, then continue with `k`.  The call is
recorded in the trace whether or not it raises; a raise discards the
continuation, as in Python. -/
def devStep (dev : Device) (c : DeviceCall) (k : HResult) : HResult :=
  match dev.act c with
  | Except.ok _ => (k.1, c :: k.2)
  | Except.error e => (Except.error e, [c])

/-! ## ComputerTool -/

structure ComputerTool where
  display_width : Int
  display_height : Int

/-- `_validate_coordinates`: returns `(valid, error)`. -/
def validate_coordinates (t : ComputerTool) (x y : Int) : Bool × Option String :=
  if ¬ (0 ≤ x ∧ x < t.display_width) then
    (false, some ("X coordinate " ++ toString x ++ " is outside display bounds (0-"
      ++ toString (t.display_width - 1) ++ ")"))
  else if ¬ (0 ≤ y ∧ y < t.display_height) then
    (false, some ("Y coordinate " ++ toString y ++ " is outside display bounds (0-"
      ++ toString (t.display_height - 1) ++ ")"))
  else
    (true, Option.none)

/-- Shared body of the click-family handlers: require `coordinate`,
unpack it, validate bounds, then perform `call x y`. -/
def clickLike (t : ComputerTool) (dev : Device) (params : Params)
    (actionName : String) (call : Int → Int → DeviceCall)
    (okMsg : Int → Int → String) : HResult :=
  match params.getOr "coordinate" PyVal.none with
  | PyVal.none => hError ("coordinate is required for " ++ actionName)
  | c =>
    match unpackPair c with
    | Except.error e => hRaise e
    | Except.ok (vx, vy) =>
      match asInt vx, asInt vy with
      | Except.error e, _ => hRaise e
      | _, Except.error e => hRaise e
      | Except.ok x, Except.ok y =>
        match validate_coordinates t x y with
        | (false, err) => hError (err.getD "")
        | (true, _) => devStep dev (call x y) (hReturn (ToolResult.ok (okMsg x y)))

def coordMsg (x y : Int) : String :=
  "(" ++ toString x ++ ", " ++ toString y ++ ")"

def _left_click (t : ComputerTool) (dev : Device) (params : Params) : HResult :=
  clickLike t dev params "left_click" (fun x y => DeviceCall.click "left" x y)
    (fun x y => "Left clicked at " ++ coordMsg x y)

def _right_click (t : ComputerTool) (dev : Device) (params : Params) : HResult :=
  clickLike t dev params "right_click" (fun x y => DeviceCall.click "right" x y)
    (fun x y => "Right clicked at " ++ coordMsg x y)

def _middle_click (t : ComputerTool) (dev : Device) (params : Params) : HResult :=
  clickLike t dev params "middle_click" (fun x y => DeviceCall.click "middle" x y)
    (fun x y => "Middle clicked at " ++ coordMsg x y)

def _double_click (t : ComputerTool) (dev : Device) (params : Params) : HResult :=
  clickLike t dev params "double_click" (fun x y => DeviceCall.doubleClick x y)
    (fun x y => "Double clicked at " ++ coordMsg x y)

def _triple_click (t : ComputerTool) (dev : Device) (params : Params) : HResult :=
  clickLike t dev params "triple_click" (fun x y => DeviceCall.tripleClick x y)
    (fun x y => "Triple clicked at " ++ coordMsg x y)

def _mouse_move (t : ComputerTool) (dev : Device) (params : Params) : HResult :=
  clickLike t dev params "mouse_move" (fun x y => DeviceCall.moveTo x y)
    (fun x y => "Moved mouse to " ++ coordMsg x y)

def _left_click_drag (t : ComputerTool) (dev : Device) (params : Params) : HResult :=
  match params.getOr "start_coordinate" PyVal.none, params.getOr "coordinate" PyVal.none with
  | PyVal.none, _ => hError "start_coordinate and coordinate are required for left_click_drag"
  | _, PyVal.none => hError "start_coordinate and coordinate are required for left_click_drag"
  | sc, c =>
    match unpackPair sc, unpackPair c with
    | Except.error e, _ => hRaise e
    | _, Except.error e => hRaise e
    | Except.ok (vsx, vsy), Except.ok (vex, vey) =>
      match asInt vsx, asInt vsy, asInt vex, asInt vey with
      | Except.ok sx, Except.ok sy, Except.ok ex, Except.ok ey =>
        match validate_coordinates t sx sy with
        | (false, err) => hError ("Start " ++ err.getD "")
        | (true, _) =>
          match validate_coordinates t ex ey with
          | (false, err) => hError ("End " ++ err.getD "")
          | (true, _) =>
            devStep dev (DeviceCall.moveTo sx sy)
              (devStep dev (DeviceCall.drag (ex - sx) (ey - sy))
                (hReturn (ToolResult.ok
                  ("Dragged from " ++ coordMsg sx sy ++ " to " ++ coordMsg ex ey))))
      | _, _, _, _ => hRaise "unsupported operand type"

def _type_text (t : ComputerTool) (dev : Device) (params : Params) : HResult :=
  match params.getOr "text" PyVal.none with
  | PyVal.none => hError "text is required for type"
  | PyVal.str s =>
    devStep dev (DeviceCall.write s)
      (hReturn (ToolResult.ok ("Typed: " ++
        (if s.length > 50 then String.mk (s.data.take 50) ++ "..." else s))))
  | _ => hRaise "pyautogui.write expects a string"

def _key_press (t : ComputerTool) (dev : Device) (params : Params) : HResult :=
  match params.getOr "key" PyVal.none with
  | PyVal.none => hError "key is required for key action"
  | PyVal.str s =>
    match pySplit (pyReplace (pyLower s) "ctrl" "command") "+" with
    | [k] => devStep dev (DeviceCall.press k) (hReturn (ToolResult.ok ("Pressed key: " ++ s)))
    | ks => devStep dev (DeviceCall.hotkey ks) (hReturn (ToolResult.ok ("Pressed key: " ++ s)))
  | _ => hRaise "str.lower on non-string"

def _scroll (t : ComputerTool) (dev : Device) (params : Params) : HResult :=
  match params.getOr "coordinate" PyVal.none with
  | PyVal.none => hError "coordinate is required for scroll"
  | c =>
    match params.getOr "scroll_direction" PyVal.none with
    | PyVal.none => hError "scroll_direction is required for scroll"
    | sd =>
      match unpackPair c with
      | Except.error e => hRaise e
      | Except.ok (vx, vy) =>
        match asInt vx, asInt vy with
        | Except.error e, _ => hRaise e
        | _, Except.error e => hRaise e
        | Except.ok x, Except.ok y =>
          match validate_coordinates t x y with
          | (false, err) => hError (err.getD "")
          | (true, _) =>
            let amt := params.getOr "scroll_amount" (PyVal.int 3)
            let okMsg := ToolResult.ok ("Scrolled " ++ pyStr sd ++ " by " ++ pyStr amt
              ++ " at " ++ coordMsg x y)
            devStep dev (DeviceCall.moveTo x y)
              (match sd with
               | PyVal.str dir =>
                 if dir = "up" then
                   match asInt amt with
                   | Except.error e => hRaise e
                   | Except.ok n => devStep dev (DeviceCall.scroll n) (hReturn okMsg)
                 else if dir = "down" then
                   match asInt amt with
                   | Except.error e => hRaise e
                   | Except.ok n => devStep dev (DeviceCall.scroll (-n)) (hReturn okMsg)
                 else if dir = "left" then
                   match asInt amt with
                   | Except.error e => hRaise e
                   | Except.ok n => devStep dev (DeviceCall.hscroll (-n)) (hReturn okMsg)
                 else if dir = "right" then
                   match asInt amt with
                   | Except.error e => hRaise e
                   | Except.ok n => devStep dev (DeviceCall.hscroll n) (hReturn okMsg)
                 else
                   hError ("Invalid scroll direction: " ++ dir)
               | v => hError ("Invalid scroll direction: " ++ pyStr v))

def _wait (t : ComputerTool) (dev : Device) (params : Params) : HResult :=
  let duration := params.getOr "duration" (PyVal.float "1.0")
  devStep dev (DeviceCall.sleep duration)
    (hReturn (ToolResult.ok ("Waited " ++ pyStr duration ++ " seconds")))

def _screenshot (t : ComputerTool) (dev : Device) (params : Params) : HResult :=
  match dev.capture with
  | CaptureResult.raised e => (Except.error e, [DeviceCall.capture])
  | CaptureResult.failed stderr =>
      (Except.ok (ToolResult.error ("Screenshot failed: " ++ stderr)), [DeviceCall.capture])
  | CaptureResult.ok data =>
      (Except.ok (ToolResult.image "image/jpeg" data), [DeviceCall.capture])

abbrev Handler := ComputerTool → Device → Params → HResult

/-- The dispatch table of `execute`, in source order. -/
def action_handlers : List (String × Handler) :=
  [("screenshot", _screenshot),
   ("left_click", _left_click),
   ("right_click", _right_click),
   ("middle_click", _middle_click),
   ("double_click", _double_click),
   ("triple_click", _triple_click),
   ("left_click_drag", _left_click_drag),
   ("mouse_move", _mouse_move),
   ("type", _type_text),
   ("key", _key_press),
   ("scroll", _scroll),
   ("wait", _wait)]

/-- `ComputerTool.execute`: look up the handler, run it, and convert any
uncaught exception into an error outcome.  Returns the outcome together
with the device-call trace (empty when no handler ran). -/
def execute (t : ComputerTool) (dev : Device) (action : String) (params : Params) :
    ToolResult × List DeviceCall :=
  match (action_handlers.find? (fun q => q.1 == action)).map (fun q => q.2) with
  | Option.none => (ToolResult.error ("Unknown action: " ++ action), [])
  | some h =>
    match h t dev params with
    | (Except.ok r, tr) => (r, tr)
    | (Except.error e, tr) =>
        (ToolResult.error ("Action \x27" ++ action ++ "\x27 failed: " ++ e), tr)

/-- `describe_action`: pure, but may raise (modelled by `Except.error`)
when it subscripts a malformed parameter value. -/
def describe_action (action : String) (params : Params) : Except String String :=
  if action = "screenshot" then
    Except.ok "Take a screenshot"
  else if action = "left_click" then do
    let coord := params.getOr "coordinate" (PyVal.list [PyVal.int 0, PyVal.int 0])
    let a ← pyIndex coord 0
    let b ← pyIndex coord 1
    Except.ok ("Left click at (" ++ pyStr a ++ ", " ++ pyStr b ++ ")")
  else if action = "right_click" then do
    let coord := params.getOr "coordinate" (PyVal.list [PyVal.int 0, PyVal.int 0])
    let a ← pyIndex coord 0
    let b ← pyIndex coord 1
    Except.ok ("Right click at (" ++ pyStr a ++ ", " ++ pyStr b ++ ")")
  else if action = "double_click" then do
    let coord := params.getOr "coordinate" (PyVal.list [PyVal.int 0, PyVal.int 0])
    let a ← pyIndex coord 0
    let b ← pyIndex coord 1
    Except.ok ("Double click at (" ++ pyStr a ++ ", " ++ pyStr b ++ ")")
  else if action = "mouse_move" then do
    let coord := params.getOr "coordinate" (PyVal.list [PyVal.int 0, PyVal.int 0])
    let a ← pyIndex coord 0
    let b ← pyIndex coord 1
    Except.ok ("Move mouse to (" ++ pyStr a ++ ", " ++ pyStr b ++ ")")
  else if action = "type" then
    match params.getOr "text" (PyVal.str "") with
    | PyVal.str s =>
      Except.ok ("Type: \x27" ++
        (if s.length > 30 then String.mk (s.data.take 30) ++ "..." else s) ++ "\x27")
    | PyVal.list l =>
      if l.length > 30 then Except.error "can only concatenate list (not str) to list"
      else Except.ok ("Type: \x27" ++ pyStr (PyVal.list l) ++ "\x27")
    | _ => Except.error "object has no len()"
  else if action = "key" then
    Except.ok ("Press key: " ++ pyStr (params.getOr "key" (PyVal.str "")))
  else if action = "scroll" then
    Except.ok ("Scroll " ++ pyStr (params.getOr "scroll_direction" (PyVal.str "down"))
      ++ " by " ++ pyStr (params.getOr "scroll_amount" (PyVal.int 3)))
  else if action = "wait" then
    Except.ok ("Wait " ++ pyStr (params.getOr "duration" (PyVal.float "1.0")) ++ " seconds")
  else if action = "left_click_drag" then do
    let start := params.getOr "start_coordinate" (PyVal.list [PyVal.int 0, PyVal.int 0])
    let e := params.getOr "coordinate" (PyVal.list [PyVal.int 0, PyVal.int 0])
    let a ← pyIndex start 0
    let b ← pyIndex start 1
    let c ← pyIndex e 0
    let d ← pyIndex e 1
    Except.ok ("Drag from (" ++ pyStr a ++ ", " ++ pyStr b ++ ") to ("
      ++ pyStr c ++ ", " ++ pyStr d ++ ")")
  else
    Except.ok ("Unknown action: " ++ action)

/-! ## Conversation data model (`src/agent.py`)

Responder content blocks, requester tool-result blocks, and the message
log.  `ToolUse` carries the fields `_process_tool_calls` reads.  The
embedding covers the tool schema's string-valued `"action"` parameter
(absent defaults to `""`, as in `tool_input.get("action", "")`).
-/

structure ToolUse where
  id : String
  name : String
  input : Params

inductive RespBlock where
  | text (s : String)
  | toolUse (tu : ToolUse)

inductive ResultContent where
  | text (s : String)
  | image (media_type data : String)
deriving DecidableEq

/-- One entry of the tool-result list sent back to the model.  The source
builds these dicts with an optional `is_error` key; an absent key means
`false`. -/
structure ToolResultMsg where
  tool_use_id : String
  content : ResultContent
  is_error : Bool
deriving DecidableEq

inductive MsgContent where
  | text (s : String)
  | blocks (bs : List RespBlock)
  | results (rs : List ToolResultMsg)

structure Message where
  role : String
  content : MsgContent

/-- `_create_tool_result`: error dicts become `is_error` text results,
image payloads become image results, and every successful handler dict
carries a `"result"` string (so the `"Action completed"` fallback of the
source is unreachable). -/
def create_tool_result (tool_use_id : String) (r : ToolResult) : ToolResultMsg :=
  match r with
  | ToolResult.error m => ⟨tool_use_id, ResultContent.text m, true⟩
  | ToolResult.image mt d => ⟨tool_use_id, ResultContent.image mt d, false⟩
  | ToolResult.ok m => ⟨tool_use_id, ResultContent.text m, false⟩

/-- The confirmation callback: decides on the action description.  The
callback may be stateful in Python (it is an arbitrary closure); it is
modelled as a function of the number of prior consultations in the run
together with the description shown. -/
inductive GateDecision where
  | proceed
  | skip
  | abort

abbrev GateFn := Nat → String → GateDecision

def getAction (input : Params) : String :=
  match input.get? "action" with
  | some (PyVal.str a) => a
  | _ => ""

/-- Outcome of `_process_tool_calls` on one batch of response blocks:
either the collected tool results, or the `StopIteration` abort
propagating (which discards the collected results, as the Python local
list is lost), or another exception propagating (e.g. a raise out of
`describe_action`).  The device-call trace and the gate-consultation
count survive in every case. -/
inductive ProcResult where
  | ok (results : List ToolResultMsg) (trace : List DeviceCall) (gIdx : Nat)
  | abort (trace : List DeviceCall) (gIdx : Nat)
  | raised (msg : String) (trace : List DeviceCall) (gIdx : Nat)

/-- Prepend one produced result and its device calls onto the outcome of
processing the remaining blocks. -/
def consResult (r : ToolResultMsg) (tr : List DeviceCall) : ProcResult → ProcResult
  | ProcResult.ok rs tr2 g => ProcResult.ok (r :: rs) (tr ++ tr2) g
  | ProcResult.abort tr2 g => ProcResult.abort (tr ++ tr2) g
  | ProcResult.raised e tr2 g => ProcResult.raised e (tr ++ tr2) g

/-- The `if self.confirm_callback and action != "screenshot"` check of
`_process_tool_calls`: when no callback is configured, or the action is a
screenshot, the action proceeds without consulting anyone; otherwise the
callback decides and the consultation counter advances. -/
def gateConsult (gate : Option GateFn) (g : Nat) (action desc : String) :
    GateDecision × Nat :=
  match gate with
  | Option.none => (GateDecision.proceed, g)
  | some gf =>
    if action = "screenshot" then (GateDecision.proceed, g)
    else (gf g desc, g + 1)

/-- `_process_tool_calls`: walk the response blocks in order; skip text
blocks; answer unknown tools with an error result; for computer actions
compute the description, consult the gate, then skip or execute.  `g`
counts gate consultations. -/
def processToolCalls (t : ComputerTool) (dev : Device) (gate : Option GateFn) :
    List RespBlock → Nat → ProcResult
  | [], g => ProcResult.ok [] [] g
  | RespBlock.text _ :: rest, g => processToolCalls t dev gate rest g
  | RespBlock.toolUse tu :: rest, g =>
    if tu.name ≠ "computer" then
      consResult ⟨tu.id, ResultContent.text ("Unknown tool: " ++ tu.name), true⟩ []
        (processToolCalls t dev gate rest g)
    else
      let action := getAction tu.input
      let params := tu.input.eraseKey "action"
      match describe_action action params with
      | Except.error e => ProcResult.raised e [] g
      | Except.ok desc =>
        match gateConsult gate g action desc with
        | (GateDecision.abort, g2) => ProcResult.abort [] g2
        | (GateDecision.skip, g2) =>
          consResult ⟨tu.id, ResultContent.text "Action skipped by user", false⟩ []
            (processToolCalls t dev gate rest g2)
        | (GateDecision.proceed, g2) =>
          let er := execute t dev action params
          consResult (create_tool_result tu.id er.1) er.2
            (processToolCalls t dev gate rest g2)

/-! ## The run loop -/

/-- A model response: ordered content blocks and the stop reason. -/
structure ModelResponse where
  content : List RespBlock
  stop_reason : String

/-- The model transport: either a response or a raised exception
(`anthropic` client failure), as a function of the messages sent. -/
inductive TransportReply where
  | ok (r : ModelResponse)
  | exn (msg : String)

abbrev ModelOracle := List Message → TransportReply

/-- How a run ended.  The source signals these by distinct exit paths of
`run`; the names follow the spec's termination taxonomy, with `crashed`
for a Python exception propagating out of `run` (only `StopIteration` is
caught around `_process_tool_calls`). -/
inductive Termination where
  | completed
  | noToolCalls
  | aborted
  | budgetExhausted
  | transportFailed (msg : String)
  | crashed (msg : String)
deriving DecidableEq

structure RunResult where
  termination : Termination
  messages : List Message
  final_response : String
  requests : Nat
  trace : List DeviceCall

/-- `final_response` tracking: the last block of the response that has a
`text` attribute, if any. -/
def lastTextBlock (bs : List RespBlock) : Option String :=
  (bs.filterMap (fun b => match b with
    | RespBlock.text s => some s
    | _ => Option.none)).getLast?

/-- The `while iterations < max_iterations` loop of `run`, with
`fuel = max_iterations - iterations`.  One model request is issued per
iteration; `req` counts them. -/
def runLoop (t : ComputerTool) (dev : Device) (gate : Option GateFn)
    (model : ModelOracle) :
    Nat → List Message → String → Nat → Nat → List DeviceCall → RunResult
  | 0, msgs, fin, req, _, tr =>
      ⟨Termination.budgetExhausted, msgs, fin, req, tr⟩
  | fuel + 1, msgs, fin, req, g, tr =>
    match model msgs with
    | TransportReply.exn e =>
        ⟨Termination.transportFailed e, msgs, "API Error: " ++ e, req + 1, tr⟩
    | TransportReply.ok resp =>
      let msgs1 := msgs ++ [⟨"assistant", MsgContent.blocks resp.content⟩]
      let fin1 := (lastTextBlock resp.content).getD fin
      if resp.stop_reason = "end_turn" then
        ⟨Termination.completed, msgs1, fin1, req + 1, tr⟩
      else
        match processToolCalls t dev gate resp.content g with
        | ProcResult.raised e tr2 _ =>
            ⟨Termination.crashed e, msgs1, fin1, req + 1, tr ++ tr2⟩
        | ProcResult.abort tr2 _ =>
            ⟨Termination.aborted, msgs1, fin1, req + 1, tr ++ tr2⟩
        | ProcResult.ok [] tr2 _ =>
            ⟨Termination.noToolCalls, msgs1, fin1, req + 1, tr ++ tr2⟩
        | ProcResult.ok rs tr2 g2 =>
            runLoop t dev gate model fuel
              (msgs1 ++ [⟨"user", MsgContent.results rs⟩]) fin1 (req + 1) g2 (tr ++ tr2)

/-- `ComputerUseAgent.run(task)`: seed the conversation with the task as
a user turn and drive the loop up to `max_iterations` model requests. -/
def run (max_iterations : Nat) (t : ComputerTool) (dev : Device)
    (gate : Option GateFn) (model : ModelOracle) (task : String) : RunResult :=
  runLoop t dev gate model max_iterations [⟨"user", MsgContent.text task⟩] "" 0 0 []

/-- Number of `action_result` blocks retained in a conversation. -/
def actionResultCount (msgs : List Message) : Nat :=
  (msgs.map (fun m => match m.content with
    | MsgContent.results rs => rs.length
    | _ => 0)).sum

/-- The identifiers of the `action_request` (tool-use) blocks of a
responder turn, in order. -/
def requestIds (bs : List RespBlock) : List String :=
  bs.filterMap (fun b => match b with
    | RespBlock.toolUse tu => some tu.id
    | _ => Option.none)

/-- The closed set of action names `execute` dispatches on. -/
def knownActionNames : List String :=
  ["screenshot", "left_click", "right_click", "middle_click", "double_click",
   "triple_click", "left_click_drag", "mouse_move", "type", "key", "scroll", "wait"]

/-! ## Theorems -/

theorem find_handler_none {a : String} (h : a ∉ knownActionNames) :
    (action_handlers.find? (fun q => q.1 == a)) = Option.none := by
  simp only [knownActionNames, List.mem_cons, List.not_mem_nil, or_false, not_or] at h
  obtain ⟨h1, h2, h3, h4, h5, h6, h7, h8, h9, h10, h11, h12⟩ := h
  have e : ∀ s : String, ¬ a = s → (s == a) = false :=
    fun s hs => beq_eq_false_iff_ne.mpr (Ne.symm hs)
  simp [action_handlers, List.find?, e _ h1, e _ h2, e _ h3, e _ h4, e _ h5, e _ h6,
    e _ h7, e _ h8, e _ h9, e _ h10, e _ h11, e _ h12]

/-- C7: for every action name outside the closed dispatch set and every
parameter set, `execute` returns `error("Unknown action: <name>")`, makes
no device call, and raises no exception (its result is a normal outcome
with an empty trace). -/
theorem unknown_action_rejected (t : ComputerTool) (dev : Device) (a : String)
    (params : Params) (h : a ∉ knownActionNames) :
    execute t dev a params = (ToolResult.error ("Unknown action: " ++ a), []) := by
  simp [execute, find_handler_none h]

/-- Witness for C7 at the action name `"frobnicate"`. -/
theorem unknown_action_rejected_witness :
    execute ⟨1920, 1080⟩ devOk "frobnicate" [] =
      (ToolResult.error "Unknown action: frobnicate", []) :=
  unknown_action_rejected ⟨1920, 1080⟩ devOk "frobnicate" [] (by decide)

/-- C9: a scroll with an in-bounds coordinate and an invalid direction
returns `error("Invalid scroll direction: <direction>")`, but only after
the mouse has been moved to the coordinate: the trace already contains
the `moveTo` device call when the error outcome is produced. -/
theorem scroll_invalid_direction_after_move (w hgt x y : Int) (dev : Device) (d : String)
    (hx : 0 ≤ x ∧ x < w) (hy : 0 ≤ y ∧ y < hgt)
    (hd : d ∉ (["up", "down", "left", "right"] : List String))
    (hmove : dev.act (DeviceCall.moveTo x y) = Except.ok ()) :
    execute ⟨w, hgt⟩ dev "scroll"
      [("coordinate", PyVal.list [PyVal.int x, PyVal.int y]),
       ("scroll_direction", PyVal.str d)] =
      (ToolResult.error ("Invalid scroll direction: " ++ d), [DeviceCall.moveTo x y]) := by
  simp only [List.mem_cons, List.not_mem_nil, or_false, not_or] at hd
  obtain ⟨hu, hdn, hl, hr⟩ := hd
  simp [execute, action_handlers, List.find?, _scroll, Params.getOr, Params.get?,
    unpackPair, asInt, validate_coordinates, hx.1, hx.2, hy.1, hy.2, devStep, hmove,
    hu, hdn, hl, hr, hError]

/-- Witness for C9: scrolling "diagonal" at (5, 5) on a 100 x 80 display. -/
theorem scroll_invalid_direction_after_move_witness :
    execute ⟨100, 80⟩ devOk "scroll"
      [("coordinate", PyVal.list [PyVal.int 5, PyVal.int 5]),
       ("scroll_direction", PyVal.str "diagonal")] =
      (ToolResult.error "Invalid scroll direction: diagonal", [DeviceCall.moveTo 5 5]) :=
  scroll_invalid_direction_after_move 100 80 5 5 devOk "diagonal"
    (by decide) (by decide) (by decide) rfl

theorem devStep_trace (dev : Device) (c : DeviceCall) (r : ToolResult) :
    (devStep dev c (hReturn r)).2 = [c] := by
  unfold devStep hReturn
  cases dev.act c <;> rfl

theorem execute_snd (t : ComputerTool) (dev : Device) (a : String) (params : Params)
    (h : Handler)
    (hfind : (action_handlers.find? (fun q => q.1 == a)).map (fun q => q.2) = some h) :
    (execute t dev a params).2 = (h t dev params).2 := by
  simp only [execute, hfind]
  rcases hp : h t dev params with ⟨pe, tr⟩
  cases pe <;> rfl

/-- C10: a key action lowercases the key string, replaces every
occurrence of "ctrl" by "command", and splits on "+"; a single resulting
key is pressed alone, several are pressed together as a combination.  In
particular "ctrl+c" presses command+c, never control+c. -/
theorem key_press_normalization (t : ComputerTool) (dev : Device) (s : String) :
    ((execute t dev "key" [("key", PyVal.str s)]).2 =
      match pySplit (pyReplace (pyLower s) "ctrl" "command") "+" with
      | [k] => [DeviceCall.press k]
      | ks => [DeviceCall.hotkey ks])
    ∧ execute ⟨100, 100⟩ devOk "key" [("key", PyVal.str "ctrl+c")] =
        (ToolResult.ok "Pressed key: ctrl+c", [DeviceCall.hotkey ["command", "c"]]) := by
  constructor
  · rw [execute_snd t dev "key" _ _key_press rfl]
    simp only [_key_press, Params.getOr, Params.get?, List.find?]
    cases hk : pySplit (pyReplace (pyLower s) "ctrl" "command") "+" with
    | nil => simp [hk, devStep_trace]
    | cons k ks =>
      cases ks with
      | nil => simp [hk, devStep_trace]
      | cons k2 ks2 => simp [hk, devStep_trace]
  · rfl

/-- A device oracle on which every input-injection primitive raises. -/
def devBoom : Device := ⟨fun _ => Except.error "boom", CaptureResult.ok ""⟩

/-- C4: any exception raised while a handler executes (in particular by a
device-capability call) is caught at the `execute` boundary and converted
into `error("Action '<name>' failed: <message>")`; it never escapes as an
unhandled fault. -/
theorem exec_fault_converted (t : ComputerTool) (dev : Device) (a : String)
    (h : Handler) (params : Params) (e : String) (tr : List DeviceCall)
    (hfind : action_handlers.find? (fun q => q.1 == a) = some (a, h))
    (hrun : h t dev params = (Except.error e, tr)) :
    execute t dev a params =
      (ToolResult.error ("Action \x27" ++ a ++ "\x27 failed: " ++ e), tr) := by
  simp [execute, hfind, hrun]

/-- Witness for C4: a device that raises "boom" on every primitive makes
a left click report `Action 'left_click' failed: boom` as a normal error
outcome. -/
theorem exec_fault_converted_witness :
    execute ⟨100, 100⟩ devBoom "left_click"
      [("coordinate", PyVal.list [PyVal.int 5, PyVal.int 5])] =
      (ToolResult.error "Action \x27left_click\x27 failed: boom",
       [DeviceCall.click "left" 5 5]) :=
  exec_fault_converted ⟨100, 100⟩ devBoom "left_click" _left_click
    [("coordinate", PyVal.list [PyVal.int 5, PyVal.int 5])] "boom"
    [DeviceCall.click "left" 5 5] rfl rfl

/-- The actions whose handlers take a coordinate pair. -/
def coordActionNames : List String :=
  ["left_click", "right_click", "middle_click", "double_click", "triple_click",
   "mouse_move", "scroll", "left_click_drag"]

/-- Parameters placing a coordinate action at `(x, y)`: scroll also needs
a direction, drag also a start coordinate (here the same pair, so that
the single out-of-bounds pair is the first one validated). -/
def coordParams (a : String) (x y : Int) : Params :=
  [("coordinate", PyVal.list [PyVal.int x, PyVal.int y])] ++
  (if a = "scroll" then [("scroll_direction", PyVal.str "down")] else []) ++
  (if a = "left_click_drag" then
    [("start_coordinate", PyVal.list [PyVal.int x, PyVal.int y])] else [])

/-- The expected validation message: it names the offending axis and the
valid range (X is checked first, as in `_validate_coordinates`). -/
def oobMsg (w hgt x y : Int) : String :=
  if ¬ (0 ≤ x ∧ x < w) then
    "X coordinate " ++ toString x ++ " is outside display bounds (0-"
      ++ toString (w - 1) ++ ")"
  else
    "Y coordinate " ++ toString y ++ " is outside display bounds (0-"
      ++ toString (hgt - 1) ++ ")"

/-- Drag reports which of its two pairs failed validation. -/
def dragPrefix (a : String) : String := if a = "left_click_drag" then "Start " else ""

theorem validate_oob (w hgt x y : Int)
    (hout : ¬ (0 ≤ x ∧ x < w) ∨ ¬ (0 ≤ y ∧ y < hgt)) :
    validate_coordinates ⟨w, hgt⟩ x y = (false, some (oobMsg w hgt x y)) := by
  by_cases hx : 0 ≤ x ∧ x < w
  · have hy : ¬ (0 ≤ y ∧ y < hgt) := hout.resolve_left (not_not_intro hx)
    simp [validate_coordinates, oobMsg, hx.1, hx.2, hy]
  · simp [validate_coordinates, oobMsg, hx]

theorem clickLike_oob (w hgt x y : Int) (dev : Device) (nm : String)
    (call : Int → Int → DeviceCall) (okMsg : Int → Int → String)
    (hout : ¬ (0 ≤ x ∧ x < w) ∨ ¬ (0 ≤ y ∧ y < hgt)) :
    clickLike ⟨w, hgt⟩ dev [("coordinate", PyVal.list [PyVal.int x, PyVal.int y])]
      nm call okMsg = hError (oobMsg w hgt x y) := by
  simp [clickLike, Params.getOr, Params.get?, List.find?, unpackPair, asInt,
    validate_oob w hgt x y hout]

theorem scroll_oob (w hgt x y : Int) (dev : Device)
    (hout : ¬ (0 ≤ x ∧ x < w) ∨ ¬ (0 ≤ y ∧ y < hgt)) :
    _scroll ⟨w, hgt⟩ dev
      [("coordinate", PyVal.list [PyVal.int x, PyVal.int y]),
       ("scroll_direction", PyVal.str "down")] = hError (oobMsg w hgt x y) := by
  simp [_scroll, Params.getOr, Params.get?, List.find?, unpackPair, asInt,
    validate_oob w hgt x y hout]

theorem drag_oob (w hgt x y : Int) (dev : Device)
    (hout : ¬ (0 ≤ x ∧ x < w) ∨ ¬ (0 ≤ y ∧ y < hgt)) :
    _left_click_drag ⟨w, hgt⟩ dev
      [("coordinate", PyVal.list [PyVal.int x, PyVal.int y]),
       ("start_coordinate", PyVal.list [PyVal.int x, PyVal.int y])] =
      hError ("Start " ++ oobMsg w hgt x y) := by
  simp [_left_click_drag, Params.getOr, Params.get?, List.find?, unpackPair, asInt,
    validate_oob w hgt x y hout]

/-- C3: every coordinate action with `x` outside `[0, display_width)` or
`y` outside `[0, display_height)` returns an error outcome naming the
offending axis and the valid range, and the device capability is never
invoked (the trace is empty). -/
theorem oob_coordinates_rejected (a : String) (ha : a ∈ coordActionNames)
    (w hgt x y : Int) (dev : Device)
    (hout : ¬ (0 ≤ x ∧ x < w) ∨ ¬ (0 ≤ y ∧ y < hgt)) :
    execute ⟨w, hgt⟩ dev a (coordParams a x y) =
      (ToolResult.error (dragPrefix a ++ oobMsg w hgt x y), []) := by
  fin_cases ha
  · simp only [execute, show (action_handlers.find? (fun q => q.1 == "left_click")).map
      (fun q => q.2) = some _left_click from rfl]
    simp [coordParams, _left_click, clickLike_oob w hgt x y dev _ _ _ hout, hError, dragPrefix]
  · simp only [execute, show (action_handlers.find? (fun q => q.1 == "right_click")).map
      (fun q => q.2) = some _right_click from rfl]
    simp [coordParams, _right_click, clickLike_oob w hgt x y dev _ _ _ hout, hError, dragPrefix]
  · simp only [execute, show (action_handlers.find? (fun q => q.1 == "middle_click")).map
      (fun q => q.2) = some _middle_click from rfl]
    simp [coordParams, _middle_click, clickLike_oob w hgt x y dev _ _ _ hout, hError, dragPrefix]
  · simp only [execute, show (action_handlers.find? (fun q => q.1 == "double_click")).map
      (fun q => q.2) = some _double_click from rfl]
    simp [coordParams, _double_click, clickLike_oob w hgt x y dev _ _ _ hout, hError, dragPrefix]
  · simp only [execute, show (action_handlers.find? (fun q => q.1 == "triple_click")).map
      (fun q => q.2) = some _triple_click from rfl]
    simp [coordParams, _triple_click, clickLike_oob w hgt x y dev _ _ _ hout, hError, dragPrefix]
  · simp only [execute, show (action_handlers.find? (fun q => q.1 == "mouse_move")).map
      (fun q => q.2) = some _mouse_move from rfl]
    simp [coordParams, _mouse_move, clickLike_oob w hgt x y dev _ _ _ hout, hError, dragPrefix]
  · simp only [execute, show (action_handlers.find? (fun q => q.1 == "scroll")).map
      (fun q => q.2) = some _scroll from rfl]
    simp [coordParams, scroll_oob w hgt x y dev hout, hError, dragPrefix]
  · simp only [execute, show (action_handlers.find? (fun q => q.1 == "left_click_drag")).map
      (fun q => q.2) = some _left_click_drag from rfl]
    simp [coordParams, drag_oob w hgt x y dev hout, hError, dragPrefix]

/-- Witness for C3 at the boundary values `x = -1` and `x = width` on a
100 x 80 display. -/
theorem oob_coordinates_rejected_witness :
    execute ⟨100, 80⟩ devOk "left_click" (coordParams "left_click" (-1) 0) =
      (ToolResult.error "X coordinate -1 is outside display bounds (0-99)", [])
    ∧ execute ⟨100, 80⟩ devOk "left_click" (coordParams "left_click" 100 0) =
      (ToolResult.error "X coordinate 100 is outside display bounds (0-99)", []) := by
  constructor
  · have h := oob_coordinates_rejected "left_click" (by decide) 100 80 (-1) 0 devOk
      (Or.inl (by decide))
    simpa [dragPrefix, oobMsg] using h
  · have h := oob_coordinates_rejected "left_click" (by decide) 100 80 100 0 devOk
      (Or.inl (by decide))
    simpa [dragPrefix, oobMsg] using h

/-- The action names `describe_action` has a dedicated branch for. -/
def describedActionNames : List String :=
  ["screenshot", "left_click", "right_click", "double_click", "mouse_move",
   "type", "key", "scroll", "wait", "left_click_drag"]

/-- Well-formed parameters for `describe_action`: any coordinate value it
may subscript is a list with at least two elements, and any text value it
may measure is a string. -/
def WFParams (p : Params) : Prop :=
  (∀ v, p.get? "coordinate" = some v → ∃ a b l, v = PyVal.list (a :: b :: l))
  ∧ (∀ v, p.get? "start_coordinate" = some v → ∃ a b l, v = PyVal.list (a :: b :: l))
  ∧ (∀ v, p.get? "text" = some v → ∃ s, v = PyVal.str s)

/-- C8 (amended): `describe_action` is a pure function (so it is
deterministic, has no side effects, and cannot invoke the device, which
is not among its arguments); it returns a string for every action name
whenever the parameters it subscripts are well-formed, and falls back to
the action name for unknown actions.  (On malformed parameters, e.g. an
empty coordinate list, it raises instead — see the counterexample.) -/
theorem describe_action_total_on_wf :
    (∀ (a : String) (p : Params), WFParams p → ∃ s, describe_action a p = Except.ok s)
    ∧ (∀ (a : String) (p : Params), a ∉ describedActionNames →
        describe_action a p = Except.ok ("Unknown action: " ++ a)) := by
  constructor
  · intro a p hwf
    obtain ⟨hc, hs, ht⟩ := hwf
    have hcoordIdx : ∃ va vb,
        pyIndex (p.getOr "coordinate" (PyVal.list [PyVal.int 0, PyVal.int 0])) 0 =
          Except.ok va ∧
        pyIndex (p.getOr "coordinate" (PyVal.list [PyVal.int 0, PyVal.int 0])) 1 =
          Except.ok vb := by
      rcases hcv : p.get? "coordinate" with _ | v
      · exact ⟨PyVal.int 0, PyVal.int 0, by simp [Params.getOr, hcv, pyIndex],
          by simp [Params.getOr, hcv, pyIndex]⟩
      · obtain ⟨av, bv, l, rfl⟩ := hc v hcv
        exact ⟨av, bv, by simp [Params.getOr, hcv, pyIndex],
          by simp [Params.getOr, hcv, pyIndex]⟩
    have hstartIdx : ∃ va vb,
        pyIndex (p.getOr "start_coordinate" (PyVal.list [PyVal.int 0, PyVal.int 0])) 0 =
          Except.ok va ∧
        pyIndex (p.getOr "start_coordinate" (PyVal.list [PyVal.int 0, PyVal.int 0])) 1 =
          Except.ok vb := by
      rcases hsv : p.get? "start_coordinate" with _ | v
      · exact ⟨PyVal.int 0, PyVal.int 0, by simp [Params.getOr, hsv, pyIndex],
          by simp [Params.getOr, hsv, pyIndex]⟩
      · obtain ⟨av, bv, l, rfl⟩ := hs v hsv
        exact ⟨av, bv, by simp [Params.getOr, hsv, pyIndex],
          by simp [Params.getOr, hsv, pyIndex]⟩
    have htextStr : ∃ s0, p.getOr "text" (PyVal.str "") = PyVal.str s0 := by
      rcases htv : p.get? "text" with _ | v
      · exact ⟨"", by simp [Params.getOr, htv]⟩
      · obtain ⟨s0, rfl⟩ := ht v htv
        exact ⟨s0, by simp [Params.getOr, htv]⟩
    obtain ⟨va, vb, ec0, ec1⟩ := hcoordIdx
    obtain ⟨wa, wb, es0, es1⟩ := hstartIdx
    obtain ⟨s0, et⟩ := htextStr
    by_cases h1 : a = "screenshot"
    · subst h1; exact ⟨_, rfl⟩
    by_cases h2 : a = "left_click"
    · subst h2
      exact ⟨"Left click at (" ++ pyStr va ++ ", " ++ pyStr vb ++ ")",
        by simp [describe_action, Bind.bind, Except.bind, ec0, ec1]⟩
    by_cases h3 : a = "right_click"
    · subst h3
      exact ⟨"Right click at (" ++ pyStr va ++ ", " ++ pyStr vb ++ ")",
        by simp [describe_action, Bind.bind, Except.bind, ec0, ec1]⟩
    by_cases h4 : a = "double_click"
    · subst h4
      exact ⟨"Double click at (" ++ pyStr va ++ ", " ++ pyStr vb ++ ")",
        by simp [describe_action, Bind.bind, Except.bind, ec0, ec1]⟩
    by_cases h5 : a = "mouse_move"
    · subst h5
      exact ⟨"Move mouse to (" ++ pyStr va ++ ", " ++ pyStr vb ++ ")",
        by simp [describe_action, Bind.bind, Except.bind, ec0, ec1]⟩
    by_cases h6 : a = "type"
    · subst h6
      exact ⟨"Type: \x27" ++
          (if s0.length > 30 then String.mk (s0.data.take 30) ++ "..." else s0) ++ "\x27",
        by simp [describe_action, et]⟩
    by_cases h7 : a = "key"
    · subst h7; exact ⟨_, rfl⟩
    by_cases h8 : a = "scroll"
    · subst h8; exact ⟨_, rfl⟩
    by_cases h9 : a = "wait"
    · subst h9; exact ⟨_, rfl⟩
    by_cases h10 : a = "left_click_drag"
    · subst h10
      exact ⟨"Drag from (" ++ pyStr wa ++ ", " ++ pyStr wb ++ ") to ("
          ++ pyStr va ++ ", " ++ pyStr vb ++ ")",
        by simp [describe_action, Bind.bind, Except.bind, ec0, ec1, es0, es1]⟩
    exact ⟨"Unknown action: " ++ a,
      by simp [describe_action, h1, h2, h3, h4, h5, h6, h7, h8, h9, h10]⟩
  · intro a p ha
    simp only [describedActionNames, List.mem_cons, List.not_mem_nil, or_false,
      not_or] at ha
    obtain ⟨h1, h2, h3, h4, h5, h6, h7, h8, h9, h10⟩ := ha
    simp [describe_action, h1, h2, h3, h4, h5, h6, h7, h8, h9, h10]

/-- Counterexample for C8 as stated: with the malformed parameter
`coordinate = []`, `describe_action` raises (IndexError on `coord[0]`)
instead of returning a string. -/
theorem describe_action_raises_on_malformed :
    ¬ ∃ s, describe_action "left_click" [("coordinate", PyVal.list [])] =
      Except.ok s := by
  rintro ⟨s, h⟩
  rw [show describe_action "left_click" [("coordinate", PyVal.list [])] =
      Except.error "list index out of range" from rfl] at h
  exact Except.noConfusion h

/-- Witness for C8 (amended): well-formed click parameters describe
successfully, and an unknown action name falls back. -/
theorem describe_action_total_on_wf_witness :
    (∃ s, describe_action "left_click"
      [("coordinate", PyVal.list [PyVal.int 3, PyVal.int 4])] = Except.ok s)
    ∧ describe_action "jump" [] = Except.ok "Unknown action: jump" := by
  constructor
  · refine describe_action_total_on_wf.1 "left_click" _ ⟨?_, ?_, ?_⟩
    · intro v hv
      simp only [Params.get?, List.find?] at hv
      exact ⟨PyVal.int 3, PyVal.int 4, [], by simpa using hv.symm⟩
    · intro v hv
      simp [Params.get?, List.find?] at hv
    · intro v hv
      simp [Params.get?, List.find?] at hv
  · exact describe_action_total_on_wf.2 "jump" [] (by decide)

/-! ## Batch-processing invariants -/

theorem create_tool_result_id (i : String) (r : ToolResult) :
    (create_tool_result i r).tool_use_id = i := by
  cases r <;> rfl

theorem consResult_ok (r : ToolResultMsg) (tr : List DeviceCall) (p : ProcResult)
    (rs : List ToolResultMsg) (tr2 : List DeviceCall) (g2 : Nat)
    (h : consResult r tr p = ProcResult.ok rs tr2 g2) :
    ∃ rs0 tr0, p = ProcResult.ok rs0 tr0 g2 ∧ rs = r :: rs0 := by
  cases p with
  | ok rs0 tr0 g0 =>
    injection h with h1 h2 h3
    exact ⟨rs0, tr0, h3 ▸ rfl, h1.symm⟩
  | abort tr0 g0 => exact absurd h (by simp [consResult])
  | raised e tr0 g0 => exact absurd h (by simp [consResult])

/-- Whenever `_process_tool_calls` runs to completion, the identifiers of
the produced tool results are exactly the identifiers of the tool-use
blocks of the batch, in order — one result per request, no matter what
the gate decided on each of them. -/
theorem procIds (t : ComputerTool) (dev : Device) (gate : Option GateFn) :
    ∀ (blocks : List RespBlock) (g : Nat) (rs : List ToolResultMsg)
      (tr : List DeviceCall) (g2 : Nat),
      processToolCalls t dev gate blocks g = ProcResult.ok rs tr g2 →
      rs.map (fun r => r.tool_use_id) = requestIds blocks := by
  intro blocks
  induction blocks with
  | nil =>
    intro g rs tr g2 h
    injection h with h1 h2 h3
    subst h1
    rfl
  | cons b rest ih =>
    intro g rs tr g2 h
    cases b with
    | text s =>
      simp only [processToolCalls] at h
      simpa [requestIds] using ih g rs tr g2 h
    | toolUse tu =>
      simp only [processToolCalls] at h
      by_cases hn : tu.name = "computer"
      · rw [if_neg (not_not_intro hn)] at h
        rcases hd : describe_action (getAction tu.input) (tu.input.eraseKey "action")
          with e | desc
        · rw [hd] at h
          exact absurd h (by simp)
        · simp only [hd] at h
          rcases hgc : gateConsult gate g (getAction tu.input) desc with ⟨dec, g3⟩
          simp only [hgc] at h
          cases dec with
          | abort => exact absurd h (by simp)
          | skip =>
            obtain ⟨rs0, tr0, hp, hrs⟩ := consResult_ok _ _ _ _ _ _ h
            subst hrs
            simpa [requestIds, List.filterMap_cons] using ih _ _ _ _ hp
          | proceed =>
            obtain ⟨rs0, tr0, hp, hrs⟩ := consResult_ok _ _ _ _ _ _ h
            subst hrs
            simpa [requestIds, List.filterMap_cons, create_tool_result_id]
              using ih _ _ _ _ hp
      · rw [if_pos hn] at h
        obtain ⟨rs0, tr0, hp, hrs⟩ := consResult_ok _ _ _ _ _ _ h
        subst hrs
        simpa [requestIds, List.filterMap_cons] using ih _ _ _ _ hp

def ProcResult.completes : ProcResult → Bool
  | ProcResult.ok _ _ _ => true
  | _ => false

theorem consResult_completes (r : ToolResultMsg) (tr : List DeviceCall) (p : ProcResult) :
    (consResult r tr p).completes = p.completes := by
  cases p <;> rfl

/-- Under a gate that always proceeds, a batch whose computer actions all
describe successfully runs to completion (no abort, no raise). -/
theorem procCompletes_of_proceed (t : ComputerTool) (dev : Device) (gf : GateFn)
    (hgf : ∀ i d, gf i d = GateDecision.proceed) :
    ∀ (blocks : List RespBlock) (g : Nat),
      (∀ tu, RespBlock.toolUse tu ∈ blocks → tu.name = "computer" →
        ∃ d, describe_action (getAction tu.input) (tu.input.eraseKey "action") =
          Except.ok d) →
      (processToolCalls t dev (some gf) blocks g).completes = true := by
  intro blocks
  induction blocks with
  | nil => intro g _; rfl
  | cons b rest ih =>
    intro g hdesc
    cases b with
    | text s =>
      simp only [processToolCalls]
      exact ih g (fun tu htu hn => hdesc tu (List.mem_cons_of_mem _ htu) hn)
    | toolUse tu =>
      by_cases hn : tu.name = "computer"
      · obtain ⟨d, hd⟩ := hdesc tu (List.mem_cons_self _ _) hn
        have hgc : gateConsult (some gf) g (getAction tu.input) d =
            (GateDecision.proceed,
             if getAction tu.input = "screenshot" then g else g + 1) := by
          by_cases hscr : getAction tu.input = "screenshot" <;>
            simp [gateConsult, hscr, hgf]
        simp only [processToolCalls, if_neg (not_not_intro hn), hd, hgc,
          consResult_completes]
        exact ih _ (fun tu2 htu hn2 => hdesc tu2 (List.mem_cons_of_mem _ htu) hn2)
      · simp only [processToolCalls, if_pos hn, consResult_completes]
        exact ih g (fun tu2 htu hn2 => hdesc tu2 (List.mem_cons_of_mem _ htu) hn2)

/-- C2: if the Confirmation Gate proceeds on every consultation and every
computer action of the batch describes successfully, processing completes
and produces exactly one `action_result` per `action_request`, with
matching identifiers in the same order; and for ANY gate, whenever a
result list is produced at all, its length never exceeds the number of
requests. -/
theorem results_match_requests (t : ComputerTool) (dev : Device) (blocks : List RespBlock)
    (gf : GateFn) (g : Nat)
    (hgf : ∀ i d, gf i d = GateDecision.proceed)
    (hdesc : ∀ tu, RespBlock.toolUse tu ∈ blocks → tu.name = "computer" →
      ∃ d, describe_action (getAction tu.input) (tu.input.eraseKey "action") =
        Except.ok d) :
    (∃ rs tr g2, processToolCalls t dev (some gf) blocks g = ProcResult.ok rs tr g2
      ∧ rs.map (fun r => r.tool_use_id) = requestIds blocks
      ∧ rs.length = (requestIds blocks).length)
    ∧ (∀ (gate2 : Option GateFn) (g3 : Nat) (rs : List ToolResultMsg)
         (tr : List DeviceCall) (g4 : Nat),
         processToolCalls t dev gate2 blocks g3 = ProcResult.ok rs tr g4 →
         rs.length ≤ (requestIds blocks).length) := by
  constructor
  · have hc := procCompletes_of_proceed t dev gf hgf blocks g hdesc
    rcases hp : processToolCalls t dev (some gf) blocks g with ⟨rs, tr, g2⟩ | ⟨tr, g2⟩ | ⟨e, tr, g2⟩
    · have hids := procIds t dev (some gf) blocks g rs tr g2 hp
      exact ⟨rs, tr, g2, rfl, hids, by rw [← hids]; simp⟩
    · rw [hp] at hc; exact absurd hc (by simp [ProcResult.completes])
    · rw [hp] at hc; exact absurd hc (by simp [ProcResult.completes])
  · intro gate2 g3 rs tr g4 hp
    have hids := procIds t dev gate2 blocks g3 rs tr g4 hp
    exact le_of_eq (by rw [← hids]; simp)

/-- A computer left-click request block at `(x, y)` with identifier `i`. -/
def mkClick (i : String) (x y : Int) : RespBlock :=
  RespBlock.toolUse ⟨i, "computer",
    [("action", PyVal.str "left_click"),
     ("coordinate", PyVal.list [PyVal.int x, PyVal.int y])]⟩

def demoTool : ComputerTool := ⟨100, 80⟩

/-- Witness for C2: a batch of a text block and two clicks under an
always-proceed gate yields exactly the two results, ids in order. -/
theorem results_match_requests_witness :
    ∃ rs tr g2,
      processToolCalls demoTool devOk (some (fun _ _ => GateDecision.proceed))
        [RespBlock.text "working", mkClick "id1" 1 1, mkClick "id2" 2 2] 0 =
        ProcResult.ok rs tr g2
      ∧ rs.map (fun r => r.tool_use_id) = ["id1", "id2"]
      ∧ rs.length = 2 := by
  have hb : ∀ tu, RespBlock.toolUse tu ∈
      [RespBlock.text "working", mkClick "id1" 1 1, mkClick "id2" 2 2] →
      tu.name = "computer" →
      ∃ d, describe_action (getAction tu.input) (tu.input.eraseKey "action") =
        Except.ok d := by
    intro tu htu _
    simp only [mkClick, List.mem_cons, List.not_mem_nil, or_false] at htu
    rcases htu with h | h | h
    · exact absurd h (by simp)
    · cases RespBlock.toolUse.inj h; exact ⟨_, rfl⟩
    · cases RespBlock.toolUse.inj h; exact ⟨_, rfl⟩
  obtain ⟨⟨rs, tr, g2, hp, hids, hlen⟩, _⟩ :=
    results_match_requests demoTool devOk
      [RespBlock.text "working", mkClick "id1" 1 1, mkClick "id2" 2 2]
      (fun _ _ => GateDecision.proceed) 0 (fun _ _ => rfl) hb
  exact ⟨rs, tr, g2, hp, by simpa [requestIds, mkClick] using hids,
    by simpa [requestIds, mkClick] using hlen⟩

/-- C6: with a gate that always returns skip, every action of a batch of
non-screenshot computer actions yields `ok_text("Action skipped by
user")` carrying that request's identifier, and the device capability is
never invoked: the trace is empty. -/
theorem skip_produces_results_without_device (t : ComputerTool) (dev : Device)
    (gf : GateFn) (hgf : ∀ i d, gf i d = GateDecision.skip) :
    ∀ (blocks : List RespBlock) (g : Nat),
      (∀ b ∈ blocks, ∃ tu, b = RespBlock.toolUse tu ∧ tu.name = "computer"
        ∧ getAction tu.input ≠ "screenshot"
        ∧ ∃ d, describe_action (getAction tu.input) (tu.input.eraseKey "action") =
            Except.ok d) →
      processToolCalls t dev (some gf) blocks g =
        ProcResult.ok ((requestIds blocks).map
          (fun i => ⟨i, ResultContent.text "Action skipped by user", false⟩))
          [] (g + blocks.length) := by
  intro blocks
  induction blocks with
  | nil => intro g _; simp [processToolCalls, requestIds]
  | cons b rest ih =>
    intro g hb
    obtain ⟨tu, rfl, hn, hscr, d, hd⟩ := hb b (List.mem_cons_self _ _)
    have hgc : gateConsult (some gf) g (getAction tu.input) d =
        (GateDecision.skip, g + 1) := by simp [gateConsult, hscr, hgf]
    have hrest := ih (g + 1) (fun b2 hb2 => hb b2 (List.mem_cons_of_mem _ hb2))
    simp only [processToolCalls, if_neg (not_not_intro hn), hd, hgc, hrest, consResult]
    simp only [requestIds, List.filterMap_cons, List.map_cons, List.length_cons,
      List.nil_append, ProcResult.ok.injEq]
    refine ⟨trivial, trivial, by omega⟩

/-- Witness for C6: two left clicks under an always-skip gate. -/
theorem skip_produces_results_without_device_witness :
    processToolCalls demoTool devOk (some (fun _ _ => GateDecision.skip))
      [mkClick "id1" 1 1, mkClick "id2" 2 2] 0 =
      ProcResult.ok
        [⟨"id1", ResultContent.text "Action skipped by user", false⟩,
         ⟨"id2", ResultContent.text "Action skipped by user", false⟩] [] 2 := by
  have hb : ∀ b ∈ [mkClick "id1" 1 1, mkClick "id2" 2 2],
      ∃ tu, b = RespBlock.toolUse tu ∧ tu.name = "computer"
      ∧ getAction tu.input ≠ "screenshot"
      ∧ ∃ d, describe_action (getAction tu.input) (tu.input.eraseKey "action") =
          Except.ok d := by
    intro b hbm
    simp only [mkClick, List.mem_cons, List.not_mem_nil, or_false] at hbm
    rcases hbm with rfl | rfl
    · exact ⟨_, rfl, rfl, by decide, _, rfl⟩
    · exact ⟨_, rfl, rfl, by decide, _, rfl⟩
  have h := skip_produces_results_without_device demoTool devOk
    (fun _ _ => GateDecision.skip) (fun _ _ => rfl)
    [mkClick "id1" 1 1, mkClick "id2" 2 2] 0 hb
  simpa [requestIds, mkClick] using h

/-! ## Run-loop theorems -/

theorem runLoop_requests_le (t : ComputerTool) (dev : Device) (gate : Option GateFn)
    (model : ModelOracle) (fuel : Nat) :
    ∀ (msgs : List Message) (fin : String) (req g : Nat) (tr : List DeviceCall),
      (runLoop t dev gate model fuel msgs fin req g tr).requests ≤ req + fuel := by
  induction fuel with
  | zero => intro msgs fin req g tr; simp [runLoop]
  | succ n ih =>
    intro msgs fin req g tr
    simp only [runLoop]
    cases hm : model msgs with
    | exn e => simp
    | ok resp =>
      by_cases hstop : resp.stop_reason = "end_turn"
      · simp [hstop]
      · simp only [if_neg hstop]
        cases hp : processToolCalls t dev gate resp.content g with
        | raised e tr2 g2 => simp
        | abort tr2 g2 => simp
        | ok rs tr2 g2 =>
          cases rs with
          | nil => simp
          | cons r rs0 =>
            exact le_trans (ih _ _ _ _ _) (by omega)

/-- A model transport that always asks for one more left click. -/
def alwaysToolModel : ModelOracle :=
  fun _ => TransportReply.ok ⟨[mkClick "c5" 1 1], "tool_use"⟩

/-- C5: `run` issues at most `max_iterations` model requests; with a
budget of 3 and a model that always requests another tool call (whose
result is always produced), the run makes exactly 3 requests and ends
with `BudgetExhausted`. -/
theorem budget_exhausts_model_requests :
    (∀ (t : ComputerTool) (dev : Device) (gate : Option GateFn) (model : ModelOracle)
       (fuel : Nat) (msgs : List Message) (fin : String) (req g : Nat)
       (tr : List DeviceCall),
       (runLoop t dev gate model fuel msgs fin req g tr).requests ≤ req + fuel)
    ∧ (run 3 demoTool devOk Option.none alwaysToolModel "task").termination =
        Termination.budgetExhausted
    ∧ (run 3 demoTool devOk Option.none alwaysToolModel "task").requests = 3 :=
  ⟨fun t dev gate model fuel => runLoop_requests_le t dev gate model fuel, rfl, rfl⟩

/-- The abort-on-second-action scenario of the spec: a batch of three
clicks whose gate proceeds on the first consultation and aborts on the
second. -/
def gateAbortSecond : GateFn :=
  fun i _ => if i == 1 then GateDecision.abort else GateDecision.proceed

def threeClickBlocks : List RespBlock :=
  [mkClick "id1" 1 1, mkClick "id2" 2 2, mkClick "id3" 3 3]

def abortModel : ModelOracle :=
  fun _ => TransportReply.ok ⟨threeClickBlocks, "tool_use"⟩

/-- Counterexample for C1 as stated: in the three-action batch aborted on
the second action, the conversation does NOT retain one `action_result`
for the completed first action — it retains none (the count is 0, not 1):
the partial result list is discarded when the abort signal unwinds
`_process_tool_calls`. -/
theorem abort_retains_no_results_counterexample :
    ¬ actionResultCount
        (run 10 demoTool devOk (some gateAbortSecond) abortModel "task").messages = 1 := by
  intro hc
  have h0 : actionResultCount
      (run 10 demoTool devOk (some gateAbortSecond) abortModel "task").messages = 0 := rfl
  exact absurd (h0.symm.trans hc) (by decide)

/-- C1 (amended): when the Confirmation Gate raises the abort signal
during a batch, the run terminates with `Aborted` and the conversation
gains only the responder turn — no `action_result` turn is appended at
all: the results of the invocations completed before the abort are
discarded together with the uncompleted ones (their device-level effects
have still occurred, as the trace records). -/
theorem abort_unwinds_batch_without_results (t : ComputerTool) (dev : Device)
    (gate : Option GateFn) (model : ModelOracle) (fuel : Nat) (msgs : List Message)
    (fin : String) (req g : Nat) (tr : List DeviceCall) (resp : ModelResponse)
    (tr2 : List DeviceCall) (g2 : Nat)
    (hm : model msgs = TransportReply.ok resp)
    (hstop : resp.stop_reason ≠ "end_turn")
    (hp : processToolCalls t dev gate resp.content g = ProcResult.abort tr2 g2) :
    runLoop t dev gate model (fuel + 1) msgs fin req g tr =
      ⟨Termination.aborted, msgs ++ [⟨"assistant", MsgContent.blocks resp.content⟩],
       (lastTextBlock resp.content).getD fin, req + 1, tr ++ tr2⟩ := by
  simp only [runLoop, hm, if_neg hstop, hp]

/-- Witness for C1 (amended): the spec's three-action scenario, aborted
on the second action.  The run ends `Aborted` after one model request;
the conversation holds exactly the task turn and the responder turn (so
zero `action_result` blocks); the trace shows the first click executed. -/
theorem abort_unwinds_batch_without_results_witness :
    runLoop demoTool devOk (some gateAbortSecond) abortModel 10
      [⟨"user", MsgContent.text "task"⟩] "" 0 0 [] =
      ⟨Termination.aborted,
       [⟨"user", MsgContent.text "task"⟩,
        ⟨"assistant", MsgContent.blocks threeClickBlocks⟩],
       "", 1, [DeviceCall.click "left" 1 1]⟩ := by
  have h := abort_unwinds_batch_without_results demoTool devOk (some gateAbortSecond)
    abortModel 9 [⟨"user", MsgContent.text "task"⟩] "" 0 0 []
    ⟨threeClickBlocks, "tool_use"⟩ [DeviceCall.click "left" 1 1] 2
    rfl (by decide) rfl
  simpa [lastTextBlock, threeClickBlocks, mkClick] using h

end ComputerUse
